import Mathlib

/-!
Verification of `add_env_to_project.py`.

The script builds a hardcoded `.env` path, prints a banner with the two
computed paths, checks whether a filesystem entry exists at the path, and
either previews the first 100 characters of the file content and prints a
fixed six-step instruction list, or prints a not-found message.

The filesystem is modelled as an association list from path strings to
entries (regular files, possibly unreadable, or directories).  A run is
modelled as the list of events it performs in order (lines printed to
standard output interleaved with filesystem effects), together with its
result (normal termination, or a propagated error) and the final filesystem
state.
-/

namespace AddEnv

/-- A filesystem entry: a regular file with its content and a readability
flag (modelling permissions), or a directory. -/
inductive FSEntry where
  | file (content : String) (readable : Bool)
  | dir
deriving DecidableEq

/-- A filesystem state: an association list from absolute paths to entries. -/
abbrev FS := List (String × FSEntry)

/-- Errors that Python raises on `open(..., 'r')` / `.read()`. -/
inductive PyError where
  | fileNotFoundError
  | permissionError
  | isADirectoryError
deriving DecidableEq

/-- How a run ends: normal termination, or an uncaught Python error. -/
inductive RunResult where
  | ok
  | raised (e : PyError)
deriving DecidableEq

/-- Process exit status derived from the run result: 0 on normal
termination, 1 when an uncaught error terminates the interpreter. -/
def exitCode : RunResult → Nat
  | .ok => 0
  | .raised _ => 1

/-- An observable event of a run: a line printed to standard output, an
existence check, or an open-for-read of a path. -/
inductive Event where
  | out (s : String)
  | fsExists (p : String)
  | fsOpenRead (p : String)
deriving DecidableEq

/-- The printed lines of an event trace, in order. -/
def outputOf : List Event → List String
  | [] => []
  | .out s :: es => s :: outputOf es
  | .fsExists _ :: es => outputOf es
  | .fsOpenRead _ :: es => outputOf es

/-- The filesystem effects of an event trace, in order (prints dropped). -/
def fsEffectsOf : List Event → List Event
  | [] => []
  | .out _ :: es => fsEffectsOf es
  | e :: es => e :: fsEffectsOf es

/-- Whether the string `p` is a prefix of the string `s` (character-wise). -/
def strStartsWith (s p : String) : Bool := p.data.isPrefixOf s.data

/-- Whether the string `p` is a suffix of the string `s` (character-wise). -/
def strEndsWith (s p : String) : Bool := p.data.reverse.isPrefixOf s.data.reverse

/-- Model of Python `os.path.join` on two components: an absolute second
component replaces the first, a trailing separator on the first is kept,
and otherwise a separator is inserted. -/
def osPathJoin (a b : String) : String :=
  if strStartsWith b "/" then b
  else if a = "" || strEndsWith a "/" then a ++ b
  else a ++ "/" ++ b

/-- Model of Python string slicing `s[:n]`: the first `n` characters. -/
def pySlice (s : String) (n : Nat) : String := ⟨s.data.take n⟩

/-- Model of Python `len` on a string: its number of characters. -/
def pyLen (s : String) : Nat := s.data.length

/-- Model of `os.path.exists`: whether any entry is present at the path. -/
def pathExists (fs : FS) (p : String) : Bool := (fs.lookup p).isSome

/-- Model of Python `open(p, 'r')` followed by `.read()`: succeeds with the
content for a readable regular file, raises otherwise. -/
def openRead (fs : FS) (p : String) : Except PyError String :=
  match fs.lookup p with
  | none => .error .fileNotFoundError
  | some (.file c true) => .ok c
  | some (.file _ false) => .error .permissionError
  | some .dir => .error .isADirectoryError

/-- The hardcoded project directory (line 8 of the script). -/
def project_dir : String := "/Users/WORK2/Desktop/Rapid Notes/Rapid Notes"

/-- The derived `.env` file path (line 9 of the script):
`os.path.join(project_dir, "Rapid Notes", ".env")`. -/
def env_file : String := osPathJoin (osPathJoin project_dir "Rapid Notes") ".env"

/-- The three banner prints (lines 11-13): banner, project directory,
env file path. -/
def bannerEvents : List Event :=
  [ .out "=== Adding .env file to Xcode project ===",
    .out ("Project directory: " ++ project_dir),
    .out (".env file path: " ++ env_file) ]

/-- The fixed six-step instruction list printed on the success path
(lines 24-30), together with the leading blank-prefixed header line. -/
def instructionLines : List String :=
  [ "\nTo add .env to Xcode project:",
    "1. In Xcode, right-click on \x27Rapid Notes\x27 folder",
    "2. Choose \x27Add Files to Rapid Notes\x27",
    "3. Navigate to and select the .env file",
    "4. Make sure \x27Add to target: Rapid Notes\x27 is checked",
    "5. Choose \x27Create folder references\x27 (not groups)",
    "6. Click \x27Add\x27" ]

/-- The outcome of a run: its ordered event trace, its result, and the
filesystem state after it. -/
structure RunOutcome where
  events : List Event
  result : RunResult
  finalFS : FS
deriving DecidableEq

/-- The entry routine `main` of `add_env_to_project.py`, as a function of
the filesystem state.  It prints the banner, checks existence of
`env_file`, and branches: on the found path it prints the success marker,
opens the file for reading (propagating any error), prints the 100-character
content preview, then the instruction list; on the not-found path it prints
the failure marker and the creation prompt.  It never writes to the
filesystem. -/
def main (fs : FS) : RunOutcome :=
  if pathExists fs env_file then
    match openRead fs env_file with
    | .ok content =>
        { events := bannerEvents ++
            [ .fsExists env_file,
              .out "✅ .env file found",
              .fsOpenRead env_file,
              .out ("Content preview: " ++ pySlice content 100 ++ "...") ] ++
            instructionLines.map .out,
          result := .ok,
          finalFS := fs }
    | .error e =>
        { events := bannerEvents ++
            [ .fsExists env_file,
              .out "✅ .env file found",
              .fsOpenRead env_file ],
          result := .raised e,
          finalFS := fs }
  else
    { events := bannerEvents ++
        [ .fsExists env_file,
          .out "❌ .env file not found",
          .out "Please create the .env file first" ],
      result := .ok,
      finalFS := fs }

/-- A filesystem with a directory sitting at the env file path. -/
def fsDir : FS := [(env_file, FSEntry.dir)]

/-- A filesystem with a readable `.env` file of known short content. -/
def fsGood : FS := [(env_file, FSEntry.file "API_KEY=abc123" true)]

/-- A second filesystem whose readable `.env` file has different content. -/
def fsGood2 : FS := [(env_file, FSEntry.file "SECRET=different-content" true)]

/-- Helper: slicing to `n` characters returns the whole string when the
string has at most `n` characters. -/
theorem pySlice_full (s : String) (n : Nat) (h : pyLen s ≤ n) : pySlice s n = s := by
  cases s with
  | mk d => exact congrArg String.mk (List.take_of_length_le h)

/-- Helper: full characterization of a run on a readable regular file. -/
theorem main_success (fs : FS) (c : String)
    (h : fs.lookup env_file = some (.file c true)) :
    main fs =
      { events := bannerEvents ++
          [ .fsExists env_file,
            .out "✅ .env file found",
            .fsOpenRead env_file,
            .out ("Content preview: " ++ pySlice c 100 ++ "...") ] ++
          instructionLines.map .out,
        result := .ok,
        finalFS := fs } := by
  simp [main, pathExists, openRead, h]

/-- Helper: full characterization of a run when no entry exists. -/
theorem main_notfound (fs : FS)
    (h : fs.lookup env_file = none) :
    main fs =
      { events := bannerEvents ++
          [ .fsExists env_file,
            .out "❌ .env file not found",
            .out "Please create the .env file first" ],
        result := .ok,
        finalFS := fs } := by
  simp [main, pathExists, h]

/-- Helper: full characterization of a run when an entry exists but the
open-for-read raises. -/
theorem main_openError (fs : FS) (e : PyError)
    (hex : pathExists fs env_file = true)
    (herr : openRead fs env_file = .error e) :
    main fs =
      { events := bannerEvents ++
          [ .fsExists env_file,
            .out "✅ .env file found",
            .fsOpenRead env_file ],
        result := .raised e,
        finalFS := fs } := by
  simp [main, hex, herr]

/-- Claim C1 counterexample: a directory is a filesystem entry at the
derived env file path, yet the run prints only the banner and the success
marker — no content preview and no instruction list — and does not
terminate normally, refuting the claim as stated. -/
theorem C1_counterexample :
    pathExists fsDir env_file = true ∧
    outputOf (main fsDir).events =
      [ "=== Adding .env file to Xcode project ===",
        "Project directory: " ++ project_dir,
        ".env file path: " ++ env_file,
        "✅ .env file found" ] ∧
    (main fsDir).result ≠ RunResult.ok := by
  refine ⟨by decide, by decide, by decide⟩

/-- Claim C1 (amended): for every filesystem state in which a readable
regular file exists at the derived env file path, the run prints the
success marker, reads the file, prints the first 100 characters of its
content followed by the ellipsis marker, and then the fixed six-step
numbered instruction list, in that order. -/
theorem C1_success_path (fs : FS) (c : String)
    (h : fs.lookup env_file = some (.file c true)) :
    outputOf (main fs).events =
      [ "=== Adding .env file to Xcode project ===",
        "Project directory: " ++ project_dir,
        ".env file path: " ++ env_file,
        "✅ .env file found",
        "Content preview: " ++ pySlice c 100 ++ "..." ] ++ instructionLines ∧
    Event.fsOpenRead env_file ∈ (main fs).events ∧
    (main fs).result = RunResult.ok := by
  rw [main_success fs c h]
  refine ⟨rfl, ?_, rfl⟩
  simp [bannerEvents]

/-- Claim C1 witness at a concrete filesystem holding a readable file. -/
theorem C1_success_path_witness :
    fsGood.lookup env_file = some (.file "API_KEY=abc123" true) ∧
    (outputOf (main fsGood).events =
      [ "=== Adding .env file to Xcode project ===",
        "Project directory: " ++ project_dir,
        ".env file path: " ++ env_file,
        "✅ .env file found",
        "Content preview: " ++ pySlice "API_KEY=abc123" 100 ++ "..." ] ++ instructionLines ∧
     Event.fsOpenRead env_file ∈ (main fsGood).events ∧
     (main fsGood).result = RunResult.ok) :=
  ⟨by decide, C1_success_path fsGood "API_KEY=abc123" (by decide)⟩

/-- Claim C2: when no entry exists at the derived env file path, the run
prints exactly the banner, the failure marker and the creation prompt, and
performs no file-open operation on any path. -/
theorem C2_notfound_path (fs : FS) (h : pathExists fs env_file = false) :
    outputOf (main fs).events =
      [ "=== Adding .env file to Xcode project ===",
        "Project directory: " ++ project_dir,
        ".env file path: " ++ env_file,
        "❌ .env file not found",
        "Please create the .env file first" ] ∧
    (∀ p, Event.fsOpenRead p ∉ (main fs).events) := by
  have hl : fs.lookup env_file = none := by
    cases hl : fs.lookup env_file with
    | none => rfl
    | some v => rw [pathExists, hl] at h; simp at h
  rw [main_notfound fs hl]
  refine ⟨rfl, ?_⟩
  intro p
  simp [bannerEvents]

/-- Claim C2 witness at the empty filesystem. -/
theorem C2_notfound_path_witness :
    pathExists ([] : FS) env_file = false ∧
    (outputOf (main ([] : FS)).events =
      [ "=== Adding .env file to Xcode project ===",
        "Project directory: " ++ project_dir,
        ".env file path: " ++ env_file,
        "❌ .env file not found",
        "Please create the .env file first" ] ∧
     (∀ p, Event.fsOpenRead p ∉ (main ([] : FS)).events)) :=
  ⟨by decide, C2_notfound_path [] (by decide)⟩

/-- Claim C3: for a readable env file whose content is shorter than 100
characters, the slice of the first 100 characters is the entire content
(the total slicing function raises nothing), and the preview line printed
is the entire content followed by the ellipsis marker. -/
theorem C3_short_content_preview (fs : FS) (c : String)
    (h : fs.lookup env_file = some (.file c true)) (hlen : pyLen c < 100) :
    pySlice c 100 = c ∧
    Event.out ("Content preview: " ++ c ++ "...") ∈ (main fs).events := by
  have hs : pySlice c 100 = c := pySlice_full c 100 (le_of_lt hlen)
  refine ⟨hs, ?_⟩
  rw [main_success fs c h, hs]
  simp [bannerEvents]

/-- Claim C3 witness: a 14-character content is previewed in full. -/
theorem C3_short_content_preview_witness :
    fsGood.lookup env_file = some (.file "API_KEY=abc123" true) ∧
    pyLen "API_KEY=abc123" < 100 ∧
    (pySlice "API_KEY=abc123" 100 = "API_KEY=abc123" ∧
     Event.out ("Content preview: " ++ "API_KEY=abc123" ++ "...") ∈ (main fsGood).events) :=
  ⟨by decide, by decide, C3_short_content_preview fsGood "API_KEY=abc123" (by decide) (by decide)⟩

/-- Claim C4: on the not-found path and on the found path with a readable
file, the run terminates normally and the process exit status is the
success status 0 — the not-found condition never yields a distinct exit
status. -/
theorem C4_normal_exit (fs : FS)
    (h : pathExists fs env_file = false ∨
         ∃ c, fs.lookup env_file = some (.file c true)) :
    (main fs).result = RunResult.ok ∧ exitCode (main fs).result = 0 := by
  rcases h with h | ⟨c, h⟩
  · have hl : fs.lookup env_file = none := by
      cases hl : fs.lookup env_file with
      | none => rfl
      | some v => rw [pathExists, hl] at h; simp at h
    rw [main_notfound fs hl]
    exact ⟨rfl, rfl⟩
  · rw [main_success fs c h]
    exact ⟨rfl, rfl⟩

/-- Claim C4 witness at the empty filesystem (not-found path). -/
theorem C4_normal_exit_witness :
    (pathExists ([] : FS) env_file = false ∨
     ∃ c, ([] : FS).lookup env_file = some (.file c true)) ∧
    ((main ([] : FS)).result = RunResult.ok ∧ exitCode (main ([] : FS)).result = 0) :=
  ⟨Or.inl (by decide), C4_normal_exit [] (Or.inl (by decide))⟩

/-- Claim C5: the env file path is the join of the hardcoded project
directory, the fixed subdirectory name and the literal filename `.env`
(explicitly, the shown absolute path), and on every filesystem state the
first four events of the run are the three banner prints — which include
both computed paths — followed by the existence check. -/
theorem C5_path_derivation_and_banner_order (fs : FS) :
    env_file = osPathJoin (osPathJoin project_dir "Rapid Notes") ".env" ∧
    env_file = "/Users/WORK2/Desktop/Rapid Notes/Rapid Notes/Rapid Notes/.env" ∧
    (main fs).events.take 4 =
      [ Event.out "=== Adding .env file to Xcode project ===",
        Event.out ("Project directory: " ++ project_dir),
        Event.out (".env file path: " ++ env_file),
        Event.fsExists env_file ] := by
  refine ⟨rfl, by decide, ?_⟩
  unfold main
  split
  · split <;> rfl
  · rfl

/-- Claim C6: any two runs that both take the success path print the same
six-step instruction list, character for character: after the five lines
that precede it, the printed output of each run is exactly the fixed
instruction list, independent of the file contents. -/
theorem C6_instruction_list_static (fs₁ fs₂ : FS) (c₁ c₂ : String)
    (h₁ : fs₁.lookup env_file = some (.file c₁ true))
    (h₂ : fs₂.lookup env_file = some (.file c₂ true)) :
    (outputOf (main fs₁).events).drop 5 = instructionLines ∧
    (outputOf (main fs₂).events).drop 5 = (outputOf (main fs₁).events).drop 5 := by
  rw [main_success fs₁ c₁ h₁, main_success fs₂ c₂ h₂]
  exact ⟨rfl, rfl⟩

/-- Claim C6 witness: two runs over files with different contents print the
identical instruction list. -/
theorem C6_instruction_list_static_witness :
    fsGood.lookup env_file = some (.file "API_KEY=abc123" true) ∧
    fsGood2.lookup env_file = some (.file "SECRET=different-content" true) ∧
    ((outputOf (main fsGood).events).drop 5 = instructionLines ∧
     (outputOf (main fsGood2).events).drop 5 = (outputOf (main fsGood).events).drop 5) :=
  ⟨by decide, by decide,
   C6_instruction_list_static fsGood fsGood2 "API_KEY=abc123" "SECRET=different-content"
     (by decide) (by decide)⟩

/-- Claim C7: when an entry exists at the env file path but the
open-for-read raises, the error propagates uncaught: the run ends with
that raised error and the process exit status is nonzero. -/
theorem C7_open_failure_propagates (fs : FS) (e : PyError)
    (hex : pathExists fs env_file = true)
    (herr : openRead fs env_file = .error e) :
    (main fs).result = RunResult.raised e ∧ exitCode (main fs).result ≠ 0 := by
  rw [main_openError fs e hex herr]
  exact ⟨rfl, by simp [exitCode]⟩

/-- Claim C7 witness: a directory at the env file path makes the open
raise, terminating the process abnormally. -/
theorem C7_open_failure_propagates_witness :
    pathExists fsDir env_file = true ∧
    openRead fsDir env_file = .error PyError.isADirectoryError ∧
    ((main fsDir).result = RunResult.raised PyError.isADirectoryError ∧
     exitCode (main fsDir).result ≠ 0) :=
  ⟨by decide, rfl,
   C7_open_failure_propagates fsDir PyError.isADirectoryError (by decide) rfl⟩

/-- Claim C8: every run leaves the filesystem unchanged, and its filesystem
effects are exactly one existence check, followed by at most one
open-for-read, both on the env file path and nothing else. -/
theorem C8_readonly_frame (fs : FS) :
    (main fs).finalFS = fs ∧
    (fsEffectsOf (main fs).events = [Event.fsExists env_file] ∨
     fsEffectsOf (main fs).events =
       [Event.fsExists env_file, Event.fsOpenRead env_file]) := by
  unfold main
  split
  · split
    · exact ⟨rfl, Or.inr rfl⟩
    · exact ⟨rfl, Or.inr rfl⟩
  · exact ⟨rfl, Or.inl rfl⟩

/-- Claim C9: the routine is a total function of the filesystem state
whose event trace is bounded (at most 14 events), and on every input it
reaches a definite outcome: normal termination or a single raised error —
there is no path that loops or blocks. -/
theorem C9_terminates_on_all_inputs (fs : FS) :
    (main fs).events.length ≤ 14 ∧
    ((main fs).result = RunResult.ok ∨
     ∃ e, (main fs).result = RunResult.raised e) := by
  unfold main
  split
  · split
    · exact ⟨by simp [bannerEvents, instructionLines], Or.inl rfl⟩
    · rename_i e he
      exact ⟨by simp [bannerEvents], Or.inr ⟨e, rfl⟩⟩
  · exact ⟨by simp [bannerEvents], Or.inl rfl⟩

/-- Claim C10: the existence check accepts any filesystem entry: with a
directory at the env file path, the run prints the success marker and only
then fails at the open, its trace ending at the open event with the raised
directory error — the success marker has already been printed when the
process terminates abnormally. -/
theorem C10_dir_entry_marker_then_raise (fs : FS)
    (h : fs.lookup env_file = some FSEntry.dir) :
    (main fs).events = bannerEvents ++
      [ Event.fsExists env_file,
        Event.out "✅ .env file found",
        Event.fsOpenRead env_file ] ∧
    Event.out "✅ .env file found" ∈ (main fs).events ∧
    (main fs).result = RunResult.raised PyError.isADirectoryError := by
  have hex : pathExists fs env_file = true := by simp [pathExists, h]
  have herr : openRead fs env_file = .error PyError.isADirectoryError := by
    simp [openRead, h]
  rw [main_openError fs PyError.isADirectoryError hex herr]
  refine ⟨rfl, ?_, rfl⟩
  simp [bannerEvents]

/-- Claim C10 witness at a concrete filesystem with a directory at the
env file path. -/
theorem C10_dir_entry_marker_then_raise_witness :
    fsDir.lookup env_file = some FSEntry.dir ∧
    ((main fsDir).events = bannerEvents ++
      [ Event.fsExists env_file,
        Event.out "✅ .env file found",
        Event.fsOpenRead env_file ] ∧
     Event.out "✅ .env file found" ∈ (main fsDir).events ∧
     (main fsDir).result = RunResult.raised PyError.isADirectoryError) :=
  ⟨by decide, C10_dir_entry_marker_then_raise fsDir (by decide)⟩

end AddEnv
